import Mathlib

/-!
Shallow embedding of the session-lifecycle and subscription-management core of
the KIS trading platform repository.

Embedded source files:
- app/strategy/base/service/websocket.py  (class KISWebSocketClient: base client)
- app/strategy/vi/service.py              (class VIWebSocketClient: VI monitor)
- app/kis_api/websocket.py                (class KISWebSocketClient: kis_api variant)
- app/common/constants.py                 (VIConfig, WebSocketConfig)

Timestamps (datetime.now().timestamp()) are modelled as integers (seconds).
Inbound frames are modelled structurally: a frame is either raw text that is
not valid JSON, or the JSON value its text parses to.  Python dictionary
lookups, default-valued .get calls and the exceptions raised by attribute
or index access on ill-typed values are modelled explicitly.
-/

/-- A JSON value as far as the embedded code inspects one: objects (ordered
field lists, as produced by json.loads), strings, and a collective
constructor for the remaining scalar values (null, numbers, booleans). -/
inductive JValue where
  | jobj (fields : List (String × JValue))
  | jstr (s : String)
  | jother

/-- An inbound websocket frame: either raw text that is not parseable JSON
(websocket.recv returning for example the heartbeat literal), or a frame
whose text parses to the given JSON value. -/
inductive Frame where
  | text (s : String)
  | json (v : JValue)

/-- Python str.split(sep) with a one-character separator, on the character
list of the string: split at every occurrence, keeping empty pieces, so an
empty input yields one empty piece. -/
def pySplitAux (sep : Char) : List Char → List Char → List (List Char)
  | [], acc => [acc.reverse]
  | c :: rest, acc =>
    if c = sep then acc.reverse :: pySplitAux sep rest []
    else pySplitAux sep rest (c :: acc)

/-- Python str.split(sep) with a one-character separator. -/
def pySplit (s : String) (sep : Char) : List String :=
  (pySplitAux sep s.data []).map String.mk

/-- Python substring containment ( needle in hay ) on character lists. -/
def containsSubC (needle : List Char) : List Char → Bool
  | [] => needle.isEmpty
  | c :: rest => List.isPrefixOf needle (c :: rest) || containsSubC needle rest

namespace JValue

/-- Python: the membership test given by the expression
( "header" in response_data ).  On a dict it tests key membership; on a str
it is a substring test; on other values it raises TypeError, modelled
as .error. -/
def headerTest : JValue → Except Unit Bool
  | .jobj fs => .ok (fs.lookup "header" |>.isSome)
  | .jstr s => .ok (containsSubC "header".data s.data)
  | .jother => .error ()

/-- Python: response_data.get(k, default).  Raises AttributeError on a
non-dict receiver. -/
def dictGetD : JValue → String → JValue → Except Unit JValue
  | .jobj fs, k, dflt => .ok ((fs.lookup k).getD dflt)
  | _, _, _ => .error ()

/-- Python: response_data.get(k) with no default (returning None when the
key is absent).  Raises AttributeError on a non-dict receiver. -/
def dictGet : JValue → String → Except Unit (Option JValue)
  | .jobj fs, k => .ok (fs.lookup k)
  | _, _ => .error ()

/-- Python truthiness of a json value ( if output: ). -/
def truthy : JValue → Bool
  | .jobj fs => !fs.isEmpty
  | .jstr s => !s.isEmpty
  | .jother => false

/-- String content of a json value; the embedded code only ever stores the
key/iv values, which the protocol sends as strings, so non-string values are
collapsed to the empty string. -/
def asStr : JValue → String
  | .jstr s => s
  | _ => ""

/-- Python equality of an optional json value with a string literal
( tr_id_resp in ["H0STCNI0", "H0STCNI9"], rt_cd == "1" ): true exactly when
the value is present and is that string. -/
def optIsStr : Option JValue → String → Bool
  | some (.jstr t), s => t == s
  | _, _ => false

end JValue

namespace BaseWS

/-!
Embedding of app/strategy/base/service/websocket.py (class KISWebSocketClient)
together with the account model from app/auth/models.py.
-/

/-- The fields of app/auth/models.py AccountInfo that the websocket client
reads.  access_token_expired is a timestamp in seconds. -/
structure AccountInfo where
  kis_access_token : String
  access_token_expired : Int
  approval_key : Option String
  hts_id : String
  app_key : String
  app_secret : String
  is_live : Bool
deriving DecidableEq, Repr

/-- Python truthiness of the Optional[str] approval_key field
( if not self.account_info.approval_key: ). -/
def approvalKeyFalsy : Option String → Bool
  | none => true
  | some s => s.isEmpty

/-- The mutable state of KISWebSocketClient: self.websocket (modelled as
presence of a handle), self._closed, self._last_pong, self.aes_key,
self.aes_iv, self._shutdown_event, and self.account_info. -/
structure WSState where
  account_info : AccountInfo
  websocketSome : Bool
  closed : Bool
  shutdown_event : Bool
  lastPong : Int
  aes_key : Option String
  aes_iv : Option String
deriving DecidableEq, Repr

/-- KISWebSocketClient._is_token_expired: datetime.now() >= access_token_expired. -/
def _is_token_expired (now : Int) (ai : AccountInfo) : Bool :=
  decide (ai.access_token_expired ≤ now)

/-- External calls performed by connect, in order of occurrence. -/
inductive Action where
  | issue_approval_key
  | save_account_info
  | close_transport
  | open_transport
  | send_frame
deriving DecidableEq, Repr

/-- Environment of one connect call: the outcome of get_approval_key
(none = the call raised), whether websocket.connect succeeds, and the frame
returned by the initial websocket.recv for the HTS subscription. -/
structure ConnectEnv where
  approval_key_result : Option String
  transportOk : Bool
  htsReply : Frame

/-- KISWebSocketClient.shutdown (lines 59-79): if not already closed, set
the closed flag and the shutdown event, close and release the websocket and
save the account info; a second call is a no-op.  Note that nothing else is
reset. -/
def shutdown (st : WSState) : WSState :=
  if st.closed then st
  else { st with closed := true, shutdown_event := true, websocketSome := false }

/-- Handling of the initial HTS-subscription reply inside connect
(lines 206-229).  Returns the updated state and true on success; on the
failure paths it mirrors which handler ran (the except branch at line 231
releases the websocket, the plain return False at line 224 does not). -/
def connectHandleHtsReply (now : Int) (st : WSState) (resp : Frame) : Bool × WSState :=
  match resp with
  | .text s =>
    match s.data with
    | [] =>
      -- response[0] raises IndexError: except branch closes and drops the websocket
      (false, { st with websocketSome := false })
    | c :: _ =>
      if c = '0' ∨ c = '1' then
        -- real-time data frame: pass, then fall through to success
        (true, { st with lastPong := now })
      else
        -- json.loads raises: except branch closes and drops the websocket
        (false, { st with websocketSome := false })
  | .json v =>
    match v.headerTest with
    | .error _ => (false, { st with websocketSome := false })
    | .ok false => (true, { st with lastPong := now })
    | .ok true =>
      -- response_data["header"].get("tr_id")
      match v with
      | .jobj fs =>
        match fs.lookup "header" with
        | some (.jobj hf) =>
          let tr_id_resp := hf.lookup "tr_id"
          if JValue.optIsStr tr_id_resp "H0STCNI0" || JValue.optIsStr tr_id_resp "H0STCNI9" then
            match v.dictGetD "body" (.jobj []) with
            | .error _ => (false, { st with websocketSome := false })
            | .ok body =>
              match body.dictGetD "output" (.jobj []) with
              | .error _ => (false, { st with websocketSome := false })
              | .ok output =>
                if output.truthy then
                  match output.dictGetD "key" (.jstr ""), output.dictGetD "iv" (.jstr "") with
                  | .ok kv, .ok ivv =>
                    let st := { st with aes_key := some kv.asStr, aes_iv := some ivv.asStr }
                    (true, { st with lastPong := now })
                  | _, _ => (false, { st with websocketSome := false })
                else
                  -- AES key/iv missing: plain return False, websocket left in place
                  (false, st)
          else (true, { st with lastPong := now })
        | some _ => (false, { st with websocketSome := false })
        | none => (false, { st with websocketSome := false })
      | _ => (false, { st with websocketSome := false })

/-- KISWebSocketClient.connect (lines 151-249).  Returns the boolean result,
the post-state and the trace of external calls in order. -/
def connect (now : Int) (env : ConnectEnv) (st : WSState) : Bool × WSState × List Action :=
  if _is_token_expired now st.account_info then
    (false, st, [])
  else
    -- approval-key issuance when the stored key is falsy
    let issue := approvalKeyFalsy st.account_info.approval_key
    match (if issue then env.approval_key_result.map some else some none : Option (Option String)) with
    | none => (false, st, [Action.issue_approval_key])
    | some issued =>
      let st := match issued with
        | some k =>
          { st with account_info := { st.account_info with approval_key := some k } }
        | none => st
      let tr0 : List Action :=
        if issue then [Action.issue_approval_key, Action.save_account_info] else []
      -- close any existing websocket, then open a fresh one
      let (st, tr1) :=
        if st.websocketSome then ({ st with websocketSome := false }, [Action.close_transport])
        else (st, [])
      let st := { st with websocketSome := true }
      if ¬ env.transportOk then
        -- inner except at lines 186-188: return False without clearing self.websocket
        (false, st, tr0 ++ tr1 ++ [Action.open_transport])
      else
        let (ok, st) := connectHandleHtsReply now st env.htsReply
        (ok, st, tr0 ++ tr1 ++ [Action.open_transport, Action.send_frame])

/-- Reply handling of KISWebSocketClient.subscribe (lines 276-289) applied
after the outbound frame was sent.  Returns the value of the subscribe
coroutine: some true / some false for the explicit returns, none when
control falls off the end of the function. -/
def subscribeHandleReply (now : Int) (st : WSState) (resp : Frame) : Option Bool × WSState :=
  match resp with
  | .text s =>
    if s = "PINGPONG" then (some true, { st with lastPong := now })
    else (some false, st)  -- json.loads raises JSONDecodeError: except returns False
  | .json v =>
    match v.headerTest with
    | .error _ => (some false, st)
    | .ok false => (none, st)  -- no return statement reached: subscribe returns None
    | .ok true =>
      match v.dictGetD "body" (.jobj []) with
      | .error _ => (some false, st)
      | .ok body =>
        match body.dictGet "rt_cd" with
        | .error _ => (some false, st)
        | .ok rt_cd =>
          match rt_cd with
          | some (.jstr "1") => (some false, st)
          | _ => (some true, st)

/-- KISWebSocketClient.subscribe (lines 251-293): guard on a missing
websocket or an expired token, send the subscribe frame, then await and
handle exactly one reply frame. -/
def subscribe (now : Int) (st : WSState) (tr_id tr_key : String) (resp : Frame) :
    Option Bool × WSState :=
  if ¬ st.websocketSome ∨ _is_token_expired now st.account_info then (some false, st)
  else subscribeHandleReply now st resp

end BaseWS

namespace VIConfig

/-! Constants from app/common/constants.py, class VIConfig. -/

def REALTIME_TR : String := "H0STCNT0"

def TRADE_TR : String := "H0STASP0"

end VIConfig

namespace VIService

/-!
Embedding of app/strategy/vi/service.py (class VIWebSocketClient, a subclass
of the base KISWebSocketClient).  The subclass adds the trigger-state map
self.vi_triggered_stocks : Dict[str, float] (symbol code to trigger time).
-/

/-- Result of VIWebSocketClient._parse_vi_data. -/
structure ViTriggerData where
  stck_shrn_iscd : String
  vi_trgr_time : String
  vi_trgr_prpr : String
deriving DecidableEq, Repr

/-- Result of VIWebSocketClient._parse_trade_data. -/
structure TradeData where
  stck_shrn_iscd : String
  stck_prpr : String
  acml_vol : String
deriving DecidableEq, Repr

/-- A value yielded by the subscribe_vi_data generator. -/
inductive ViData where
  | vi (d : ViTriggerData)
  | trade (d : TradeData)
deriving DecidableEq, Repr

/-- VIWebSocketClient._parse_vi_data (lines 150-157): split the payload on
the caret and read fields 0, 1 and 2.  In Python an out-of-range index raises
IndexError, caught by the caller; modelled as none. -/
def _parse_vi_data (data : String) : Option ViTriggerData :=
  let fields := pySplit data '^'
  if 3 ≤ fields.length then
    some ⟨fields.getD 0 "", fields.getD 1 "", fields.getD 2 ""⟩
  else none

/-- VIWebSocketClient._parse_trade_data (lines 159-166): split the payload
on the caret and read fields 0, 2 and 13; an out-of-range index raises
IndexError, caught by the caller; modelled as none. -/
def _parse_trade_data (data : String) : Option TradeData :=
  let fields := pySplit data '^'
  if 14 ≤ fields.length then
    some ⟨fields.getD 0 "", fields.getD 2 "", fields.getD 13 ""⟩
  else none

/-- A Python dict over string keys with insertion-ordered entries.
dictInsert is d[k] = v: update in place when present, append otherwise. -/
def dictInsert (m : List (String × Int)) (k : String) (v : Int) : List (String × Int) :=
  match m with
  | [] => [(k, v)]
  | (k0, v0) :: rest => if k0 = k then (k, v) :: rest else (k0, v0) :: dictInsert rest k v

/-- Python del d[k]. -/
def dictErase (m : List (String × Int)) (k : String) : List (String × Int) :=
  m.filter (fun p => p.1 != k)

/-- State of a VIWebSocketClient: the inherited base-client state plus the
trigger-state map self.vi_triggered_stocks. -/
structure VIState where
  base : BaseWS.WSState
  vi_triggered_stocks : List (String × Int)
deriving DecidableEq, Repr

/-- VIWebSocketClient._subscribe_realtime_trade (lines 40-54): guard on a
missing websocket or an expired token, then delegate to the inherited
subscribe with the trade TR and the stock code.  The reply frame consumed by
that nested subscribe comes from the environment. -/
def _subscribe_realtime_trade (now : Int) (reply : Frame) (st : VIState) (stock_code : String) :
    Option Bool × VIState :=
  if ¬ st.base.websocketSome ∨ BaseWS._is_token_expired now st.base.account_info then
    (some false, st)
  else
    let r := BaseWS.subscribe now st.base VIConfig.TRADE_TR stock_code reply
    (r.1, { st with base := r.2 })

/-- Per-symbol subscription requests issued while processing one message. -/
inductive SubReq where
  | trade_subscribe (stock_code : String)
deriving DecidableEq, Repr

/-- One iteration of the message-handling body of
VIWebSocketClient.subscribe_vi_data (lines 98-137), applied to a received
message: heartbeat handling, real-time frame classification, VI-trigger and
trade-tick dispatch including the trigger-state map updates.  Returns the
post-state, the value yielded (if any) and the per-symbol subscription
requests issued.  reply is the frame consumed by a nested subscribe call. -/
def process_message (now : Int) (reply : Frame) (st : VIState) (message : String) :
    VIState × Option ViData × List SubReq :=
  if message = "PINGPONG" then
    ({ st with base := { st.base with lastPong := now } }, none, [])
  else match hm : message.data with
  | [] =>
    -- message[0] raises IndexError, caught by the outer handler: no effect
    (st, none, [])
  | c :: _ =>
    if c = '0' ∨ c = '1' then
      let recvstr := pySplit message '|'
      if recvstr.length < 4 then (st, none, [])
      else
        let tr_id := recvstr.getD 1 ""
        if tr_id = VIConfig.REALTIME_TR then
          match _parse_vi_data (recvstr.getD 3 "") with
          | none => (st, none, [])  -- parse raised; data stays None, nothing yielded
          | some d =>
            let stock_code := d.stck_shrn_iscd
            let st := { st with
              vi_triggered_stocks := dictInsert st.vi_triggered_stocks stock_code now }
            let r := _subscribe_realtime_trade now reply st stock_code
            (r.2, some (.vi d), [SubReq.trade_subscribe stock_code])
        else if tr_id = "H0STASP0" then
          match _parse_trade_data (recvstr.getD 3 "") with
          | none => (st, none, [])  -- parse raised; data stays None, nothing yielded
          | some d =>
            let stock_code := d.stck_shrn_iscd
            match st.vi_triggered_stocks.lookup stock_code with
            | some t0 =>
              if 120 < now - t0 then
                ({ st with vi_triggered_stocks := dictErase st.vi_triggered_stocks stock_code },
                  some (.trade d), [])
              else (st, some (.trade d), [])
            | none => (st, some (.trade d), [])
        else (st, none, [])  -- unknown tr_id: data stays None, nothing yielded
    else (st, none, [])  -- control frame: no branch of the loop body applies

/-- Processing of a timed sequence of messages: fold process_message over
(timestamp, message) pairs, keeping only the state. -/
def run_messages (reply : Frame) (st : VIState) (msgs : List (Int × String)) : VIState :=
  msgs.foldl (fun s tm => (process_message tm.1 reply s tm.2).1) st

/-- A message is a well-formed trade tick for symbol S: a real-time frame
with at least 4 pipe-separated fields, tr_id H0STASP0, and a payload that
parses as trade data whose symbol field is S. -/
def is_trade_tick_for (S : String) (m : String) : Bool :=
  match m.data with
  | [] => false
  | c :: _ =>
    (c == '0' || c == '1') &&
      decide (4 ≤ (pySplit m '|').length) &&
      ((pySplit m '|').getD 1 "" == "H0STASP0") &&
      (match _parse_trade_data ((pySplit m '|').getD 3 "") with
       | some d => d.stck_shrn_iscd == S
       | none => false)

/-- The inherited shutdown applied to a VIWebSocketClient: the base-class
shutdown runs; the subclass adds no override, so vi_triggered_stocks is not
touched. -/
def shutdown (st : VIState) : VIState :=
  { st with base := BaseWS.shutdown st.base }

end VIService

namespace KisApi

/-!
Embedding of app/kis_api/websocket.py (class KISWebSocketClient), the
variant with the bounded reconnect loop: ensure_connection, connect and
_subscribe_hts.
-/

/-- The mutable state of the kis_api KISWebSocketClient that the connection
manager touches: self.websocket (presence), self._closed, self._last_pong,
self._reconnect_attempts, self._is_connecting, self._last_ping and
self._is_subscribed. -/
structure ConnState where
  websocketSome : Bool
  closed : Bool
  lastPong : Int
  reconnectAttempts : Nat
  isConnecting : Bool
  lastPing : Int
  isSubscribed : Bool
deriving DecidableEq, Repr

/-- self._max_reconnect_attempts, set in __init__. -/
def _max_reconnect_attempts : Nat := 3

/-- self._reconnect_delay in seconds, set in __init__. -/
def _reconnect_delay : Nat := 5

/-- self._ping_interval in seconds, set in __init__. -/
def _ping_interval : Int := 60

/-- self._ping_timeout in seconds, set in __init__. -/
def _ping_timeout : Int := 60

/-- Environment of a connection-management call: the current time, whether
websocket.connect succeeds, the outcome of processing the HTS subscription
acknowledgement (_process_response; .error models websocket.recv raising)
and whether websocket.ping succeeds. -/
structure Env where
  now : Int
  transportOk : Bool
  htsResult : Except Unit Bool
  pingOk : Bool

/-- Externally observable steps of ensure_connection and connect, in order
of occurrence. -/
inductive Ev where
  | delay (seconds : Nat)
  | connectCall
  | pingSent
deriving DecidableEq, Repr

/-- The kis_api close (lines 231-243): on a not-yet-closed client, set the
closed flag, drop the subscription flag and release the websocket; a second
call is a no-op. -/
def close (st : ConnState) : ConnState :=
  if st.closed then st
  else { st with closed := true, isSubscribed := false, websocketSome := false }

/-- The three mutually recursive entry points of the connection manager. -/
inductive Call where
  | ensure
  | conn
  | hts

/-- One interpreter for the mutual recursion among ensure_connection
(lines 85-117), connect (lines 40-83) and _subscribe_hts (lines 183-221).
Every nested call consumes one unit of fuel; with fuel 0 the interpreter
aborts with a failure result and an unchanged state (never reached in the
theorems below, which supply enough fuel).  Results are
(return value, post-state, event trace). -/
def runCall : Nat → Call → Env → ConnState → Bool × ConnState × List Ev
  | 0, _, _, st => (false, st, [])
  | Nat.succ fuel, c, env, st =>
    match c with
    | .ensure =>
      -- ensure_connection
      if ¬ st.websocketSome ∨ st.closed then
        if st.reconnectAttempts < _max_reconnect_attempts then
          let st := { st with reconnectAttempts := st.reconnectAttempts + 1 }
          let r := runCall fuel .conn env st
          (r.1, r.2.1, Ev.delay _reconnect_delay :: Ev.connectCall :: r.2.2)
        else
          (false, st, [])
      else
        -- ping-interval check
        if _ping_interval ≤ env.now - st.lastPing then
          if env.pingOk then
            let st := { st with lastPing := env.now }
            -- pong-timeout check
            if _ping_timeout ≤ env.now - st.lastPong then
              let st := { st with closed := true, isSubscribed := false }
              let r := runCall fuel .ensure env st
              (r.1, r.2.1, Ev.pingSent :: r.2.2)
            else (true, st, [Ev.pingSent])
          else
            let st := { st with closed := true, isSubscribed := false }
            let r := runCall fuel .ensure env st
            (r.1, r.2.1, Ev.pingSent :: r.2.2)
        else
          if _ping_timeout ≤ env.now - st.lastPong then
            let st := { st with closed := true, isSubscribed := false }
            runCall fuel .ensure env st
          else (true, st, [])
    | .conn =>
      -- connect
      if st.isConnecting then (false, st, [])
      else
        let st := { st with isConnecting := true }
        let st := if st.websocketSome then close st else st
        let st := { st with websocketSome := true }
        if ¬ env.transportOk then
          -- except branch: websocket closed and dropped, closed flag set
          (false, { st with websocketSome := false, closed := true,
                            isSubscribed := false, isConnecting := false }, [])
        else
          let r := runCall fuel .hts env st
          if r.1 then
            (true, { r.2.1 with reconnectAttempts := 0, closed := false,
                                isSubscribed := true, isConnecting := false }, r.2.2)
          else
            (false, { r.2.1 with closed := true, isConnecting := false }, r.2.2)
    | .hts =>
      -- _subscribe_hts
      let r := runCall fuel .ensure env st
      if ¬ r.1 then (false, r.2.1, r.2.2)
      else
        match env.htsResult with
        | .error _ => (false, { r.2.1 with closed := true }, r.2.2)
        | .ok b => (b, r.2.1, r.2.2)

/-- KISWebSocketClient.ensure_connection of app/kis_api/websocket.py. -/
def ensure_connection (fuel : Nat) (env : Env) (st : ConnState) : Bool × ConnState × List Ev :=
  runCall fuel .ensure env st

/-- KISWebSocketClient.connect of app/kis_api/websocket.py. -/
def connect (fuel : Nat) (env : Env) (st : ConnState) : Bool × ConnState × List Ev :=
  runCall fuel .conn env st

/-- KISWebSocketClient._subscribe_hts of app/kis_api/websocket.py. -/
def _subscribe_hts (fuel : Nat) (env : Env) (st : ConnState) : Bool × ConnState × List Ev :=
  runCall fuel .hts env st

end KisApi

/-! Concrete example states used by witnesses and counterexamples. -/

/-- An account whose token expires at time 1000000. -/
def exAccount : BaseWS.AccountInfo :=
  ⟨"token", 1000000, some "approval", "HTSID", "appkey", "appsecret", true⟩

/-- The same account with its token already expired at time 5. -/
def exExpiredAccount : BaseWS.AccountInfo :=
  { exAccount with access_token_expired := 5 }

/-- A connected, healthy base-client state. -/
def exBase : BaseWS.WSState := ⟨exAccount, true, false, false, 0, none, none⟩

/-- A VI-client state whose tracker holds symbol 005930, triggered at time 0. -/
def exViState : VIService.VIState := ⟨exBase, [("005930", 0)]⟩

/-- A successful subscription acknowledgement frame. -/
def exReply : Frame :=
  .json (.jobj [("header", .jobj [("tr_id", .jstr "H0STASP0")]),
                ("body", .jobj [("rt_cd", .jstr "0"), ("msg1", .jstr "SUBSCRIBE SUCCESS")])])

/-- A well-formed real-time trade tick for symbol 005930 (14 caret fields). -/
def exTradeTick : String :=
  "0|H0STASP0|001|005930^093000^70000^4^5^6^7^8^9^10^11^12^13^100000"

/-- A well-formed VI-trigger frame for symbol 005930. -/
def exViTrigger : String := "0|H0STCNT0|001|005930^093000^70000"

/-- A kis_api environment in which every transport connect attempt fails. -/
def failEnv : KisApi.Env := ⟨0, false, .ok false, true⟩

/-- kis_api scenario state: fresh client, no websocket, counter 0. -/
def scn0 : KisApi.ConnState := ⟨false, false, 0, 0, false, 0, false⟩

/-- kis_api scenario state after one failed reconnect attempt. -/
def scn1 : KisApi.ConnState := ⟨false, true, 0, 1, false, 0, false⟩

/-- kis_api scenario state after two failed reconnect attempts. -/
def scn2 : KisApi.ConnState := ⟨false, true, 0, 2, false, 0, false⟩

/-- kis_api scenario state after three failed reconnect attempts. -/
def scn3 : KisApi.ConnState := ⟨false, true, 0, 3, false, 0, false⟩

/-! Helper lemmas about the dict operations and the nested subscription
call of the VI client. -/

lemma lookup_dictInsert (k q : String) (v : Int) :
    ∀ m : List (String × Int),
      (VIService.dictInsert m k v).lookup q = if q = k then some v else m.lookup q := by
  intro m
  induction m with
  | nil =>
    by_cases h : q = k
    · simp [VIService.dictInsert, List.lookup, h]
    · simp [VIService.dictInsert, List.lookup, h, beq_false_of_ne h]
  | cons hd tl ih =>
    obtain ⟨k0, v0⟩ := hd
    by_cases h0 : k0 = k
    · subst h0
      by_cases h : q = k0
      · simp [VIService.dictInsert, List.lookup, h]
      · simp [VIService.dictInsert, List.lookup, h, beq_false_of_ne h]
    · by_cases h : q = k0
      · subst h
        simp [VIService.dictInsert, h0, List.lookup, Ne.symm h0]
      · simp [VIService.dictInsert, h0, List.lookup, beq_false_of_ne h, h, ih]

lemma lookup_dictErase_self (k : String) :
    ∀ m : List (String × Int), (VIService.dictErase m k).lookup k = none := by
  intro m
  induction m with
  | nil => simp [VIService.dictErase]
  | cons hd tl ih =>
    obtain ⟨k0, v0⟩ := hd
    simp only [VIService.dictErase, List.filter_cons] at ih ⊢
    by_cases h : k0 = k
    · subst h; simpa using ih
    · simpa [bne_iff_ne, h, List.lookup, beq_false_of_ne (Ne.symm h)] using ih

lemma lookup_dictErase_ne (k q : String) (hq : q ≠ k) :
    ∀ m : List (String × Int), (VIService.dictErase m k).lookup q = m.lookup q := by
  intro m
  induction m with
  | nil => simp [VIService.dictErase]
  | cons hd tl ih =>
    obtain ⟨k0, v0⟩ := hd
    simp only [VIService.dictErase, List.filter_cons] at ih ⊢
    by_cases h : k0 = k
    · subst h
      simp [List.lookup, beq_false_of_ne hq, ih]
    · by_cases h2 : q = k0
      · subst h2; simp [bne_iff_ne, h, List.lookup]
      · simp [bne_iff_ne, h, List.lookup, beq_false_of_ne h2, ih]

lemma subscribe_realtime_trade_stocks (now : Int) (reply : Frame) (st : VIService.VIState)
    (code : String) :
    ((VIService._subscribe_realtime_trade now reply st code).2).vi_triggered_stocks
      = st.vi_triggered_stocks := by
  unfold VIService._subscribe_realtime_trade
  split <;> rfl


/-! Claim theorems. -/

/-- C7: for every connection state in which the is-connecting guard flag is
set, calling connect() returns false and leaves all connection state
(transport handle, closed flag, reconnect-attempt counter, subscription
flags) unchanged. -/
theorem connect_guarded_when_connecting (fuel : Nat) (env : KisApi.Env)
    (st : KisApi.ConnState) (h : st.isConnecting = true) :
    KisApi.connect fuel env st = (false, st, []) := by
  cases fuel with
  | zero => rfl
  | succ fuel => simp [KisApi.connect, KisApi.runCall, h]

/-- C7 witness: the guard fires on a concrete connecting state. -/
theorem connect_guarded_when_connecting_witness :
    KisApi.connect 5 failEnv ⟨true, false, 0, 0, true, 0, false⟩
      = (false, ⟨true, false, 0, 0, true, 0, false⟩, []) :=
  connect_guarded_when_connecting 5 failEnv ⟨true, false, 0, 0, true, 0, false⟩ rfl

/-- C9: for every credential whose expiry timestamp is not after the current
time, connect() refuses to proceed and returns failure, the state (in
particular the stored token and expiry) is unchanged, and the trace of
external calls is empty: no transport is opened and no token refresh is
attempted. -/
theorem connect_refused_on_expired_token (now : Int) (env : BaseWS.ConnectEnv)
    (st : BaseWS.WSState) (h : st.account_info.access_token_expired ≤ now) :
    BaseWS.connect now env st = (false, st, []) := by
  simp [BaseWS.connect, BaseWS._is_token_expired, h]

/-- C9 witness: a token expired at time 5 blocks a connect at time 10. -/
theorem connect_refused_on_expired_token_witness :
    BaseWS.connect 10 ⟨some "k", true, .text "PINGPONG"⟩
        ⟨exExpiredAccount, false, false, false, 0, none, none⟩
      = (false, ⟨exExpiredAccount, false, false, false, 0, none, none⟩, []) :=
  connect_refused_on_expired_token 10 _ _ (by decide)

/-- C10: an acknowledgement reply that parses as a JSON object without a
"header" key makes subscribe return None: neither of the boolean results is
produced, so the declared boolean interface of subscribe is not total. -/
theorem subscribe_none_without_header (now : Int) (st : BaseWS.WSState)
    (tr_id tr_key : String) (fs : List (String × JValue))
    (hws : st.websocketSome = true)
    (hexp : BaseWS._is_token_expired now st.account_info = false)
    (hhd : fs.lookup "header" = none) :
    BaseWS.subscribe now st tr_id tr_key (.json (.jobj fs)) = (none, st) := by
  simp [BaseWS.subscribe, hws, hexp, BaseWS.subscribeHandleReply, JValue.headerTest, hhd]

/-- C10 witness: a reply carrying only a body yields None. -/
theorem subscribe_none_without_header_witness :
    BaseWS.subscribe 7 exBase "H0STCNT0" ""
        (.json (.jobj [("body", .jobj [("rt_cd", .jstr "0")])]))
      = (none, exBase) :=
  subscribe_none_without_header 7 exBase "H0STCNT0" "" _ rfl (by decide) rfl

/-- C5: a reply whose body return code rt_cd is the string "0" yields
subscription success true, and one whose rt_cd is "1" yields false, in both
cases with the state unchanged (no event emitted). -/
theorem subscribe_rt_cd_outcomes (now : Int) (st : BaseWS.WSState)
    (tr_id tr_key msg1 : String) (hv : JValue)
    (hws : st.websocketSome = true)
    (hexp : BaseWS._is_token_expired now st.account_info = false) :
    BaseWS.subscribe now st tr_id tr_key
        (.json (.jobj [("header", hv),
                       ("body", .jobj [("rt_cd", .jstr "0"), ("msg1", .jstr msg1)])]))
      = (some true, st)
    ∧ BaseWS.subscribe now st tr_id tr_key
        (.json (.jobj [("header", hv),
                       ("body", .jobj [("rt_cd", .jstr "1"), ("msg1", .jstr msg1)])]))
      = (some false, st) := by
  constructor <;>
    simp [BaseWS.subscribe, hws, hexp, BaseWS.subscribeHandleReply, JValue.headerTest,
          JValue.dictGetD, JValue.dictGet, List.lookup]

/-- C5 witness: concrete success and failure acknowledgements for
tr_id H0STCNT0 with an empty tr_key. -/
theorem subscribe_rt_cd_outcomes_witness :
    BaseWS.subscribe 7 exBase "H0STCNT0" ""
        (.json (.jobj [("header", .jobj []),
                       ("body", .jobj [("rt_cd", .jstr "0"), ("msg1", .jstr "OK")])]))
      = (some true, exBase)
    ∧ BaseWS.subscribe 7 exBase "H0STCNT0" ""
        (.json (.jobj [("header", .jobj []),
                       ("body", .jobj [("rt_cd", .jstr "1"), ("msg1", .jstr "ERR")])]))
      = (some false, exBase) :=
  ⟨(subscribe_rt_cd_outcomes 7 exBase "H0STCNT0" "" "OK" (.jobj []) rfl (by decide)).1,
   (subscribe_rt_cd_outcomes 7 exBase "H0STCNT0" "" "ERR" (.jobj []) rfl (by decide)).2⟩

/-- C1 counterexample: with a live websocket and a valid token, a subscribe
awaiting its acknowledgement that receives exactly the heartbeat literal
PINGPONG returns success (some true) on that frame alone, contradicting the
claim that the subscribe call does not report success on that frame. -/
theorem subscribe_pingpong_counterexample :
    BaseWS.subscribe 7 exBase "H0STCNT0" "" (.text "PINGPONG")
      = (some true, { exBase with lastPong := 7 }) := by
  decide

/-- C1 amended: a PINGPONG reply received while awaiting the acknowledgement
updates the keepalive (last-pong) timestamp and the subscribe call reports
success (returns true) on that frame alone. -/
theorem subscribe_pingpong_reports_success (now : Int) (st : BaseWS.WSState)
    (tr_id tr_key : String)
    (hws : st.websocketSome = true)
    (hexp : BaseWS._is_token_expired now st.account_info = false) :
    BaseWS.subscribe now st tr_id tr_key (.text "PINGPONG")
      = (some true, { st with lastPong := now }) := by
  simp [BaseWS.subscribe, hws, hexp, BaseWS.subscribeHandleReply]

/-- C1 amended witness: the concrete PINGPONG reply at time 9. -/
theorem subscribe_pingpong_reports_success_witness :
    BaseWS.subscribe 9 exBase "H0STASP0" "005930" (.text "PINGPONG")
      = (some true, { exBase with lastPong := 9 }) :=
  subscribe_pingpong_reports_success 9 exBase "H0STASP0" "005930" rfl (by decide)

/-- C8: a real-time data frame (leading character 0 or 1) with fewer than 4
pipe-separated fields is discarded: no event is produced, no subscription is
requested, and the entire client state (transport handle, closed flag,
keepalive timestamps, trigger-state map) is unchanged. -/
theorem malformed_frame_discarded (now : Int) (reply : Frame)
    (st : VIService.VIState) (msg : String)
    (hfc : msg.data.head? = some '0' ∨ msg.data.head? = some '1')
    (hlen : (pySplit msg '|').length < 4) :
    VIService.process_message now reply st msg = (st, none, []) := by
  have hpp : msg ≠ "PINGPONG" := by
    intro h
    subst h
    revert hfc
    decide
  unfold VIService.process_message
  rw [if_neg hpp]
  split
  all_goals simp_all [hlen]

/-- C8 witness: the two-field frame discarded with no state change. -/
theorem malformed_frame_discarded_witness :
    VIService.process_message 50 exReply exViState "0|X" = (exViState, none, []) :=
  malformed_frame_discarded 50 exReply exViState "0|X" (by decide) (by decide)

/-- C6 counterexample: shutdown invoked on a state whose tracker holds
symbol 005930 leaves that entry in place: the post-shutdown map is the same
non-empty map, contradicting the claim that it is empty. -/
theorem shutdown_leaves_tracker_counterexample :
    (VIService.shutdown exViState).vi_triggered_stocks = [("005930", 0)]
      ∧ (VIService.shutdown exViState).vi_triggered_stocks ≠ [] := by
  decide

/-- C6 amended: shutdown always leaves the trigger-state map exactly as it
was (it is never cleared); the closed flag is set, and on a not-yet-closed
state the shutdown event is set and the transport handle released. -/
theorem shutdown_preserves_tracker (st : VIService.VIState) :
    (VIService.shutdown st).vi_triggered_stocks = st.vi_triggered_stocks
    ∧ (VIService.shutdown st).base.closed = true
    ∧ (st.base.closed = false →
        (VIService.shutdown st).base
          = { st.base with closed := true, shutdown_event := true, websocketSome := false }) := by
  refine ⟨rfl, ?_, ?_⟩
  · by_cases h : st.base.closed <;> simp [VIService.shutdown, BaseWS.shutdown, h]
  · intro h
    simp [VIService.shutdown, BaseWS.shutdown, h]

/-- C6 amended witness: the concrete tracker state with one entry. -/
theorem shutdown_preserves_tracker_witness :
    (VIService.shutdown exViState).vi_triggered_stocks = [("005930", 0)]
    ∧ (VIService.shutdown exViState).base.closed = true
    ∧ (VIService.shutdown exViState).base
        = { exViState.base with closed := true, shutdown_event := true, websocketSome := false } :=
  ⟨(shutdown_preserves_tracker exViState).1,
   (shutdown_preserves_tracker exViState).2.1,
   (shutdown_preserves_tracker exViState).2.2 rfl⟩

/-- C2 counterexample: symbol 005930 already has a trigger entry recorded at
time 0; a further TriggerEvent for it at time 50 overwrites the recorded
timestamp with 50, contradicting the claim that an existing entry is left
unchanged. -/
theorem trigger_entry_overwritten_counterexample :
    exViState.vi_triggered_stocks.lookup "005930" = some 0
    ∧ ((VIService.process_message 50 exReply exViState
          exViTrigger).1.vi_triggered_stocks).lookup "005930" = some 50 := by
  decide

/-- C2 amended: on every TriggerEvent for a symbol, the tracker records
symbol to now unconditionally, overwriting the timestamp of an existing
entry; entries are therefore not created exactly once per symbol. -/
theorem trigger_entry_overwritten (now : Int) (reply : Frame) (st : VIService.VIState)
    (msg : String) (d : VIService.ViTriggerData)
    (hfc : msg.data.head? = some '0' ∨ msg.data.head? = some '1')
    (hlen : 4 ≤ (pySplit msg '|').length)
    (htr : (pySplit msg '|').getD 1 "" = VIConfig.REALTIME_TR)
    (hp : VIService._parse_vi_data ((pySplit msg '|').getD 3 "") = some d) :
    ((VIService.process_message now reply st msg).1.vi_triggered_stocks).lookup
        d.stck_shrn_iscd = some now := by
  have hpp : msg ≠ "PINGPONG" := by
    intro h
    subst h
    revert htr
    decide
  unfold VIService.process_message
  rw [if_neg hpp]
  split
  · rename_i hm
    rw [hm] at hfc
    simp at hfc
  · rename_i c rest hm
    rw [hm] at hfc
    simp only [List.head?_cons, Option.some.injEq] at hfc
    rw [if_pos hfc, if_neg (by omega : ¬ (pySplit msg '|').length < 4), if_pos htr, hp]
    simp [subscribe_realtime_trade_stocks, lookup_dictInsert]

/-- C2 amended witness: the overwrite at the concrete trigger frame. -/
theorem trigger_entry_overwritten_witness :
    ((VIService.process_message 50 exReply exViState
        exViTrigger).1.vi_triggered_stocks).lookup "005930" = some 50 :=
  trigger_entry_overwritten 50 exReply exViState exViTrigger
    ⟨"005930", "093000", "70000"⟩ (by decide) (by decide) (by decide) (by decide)

/-- C4: the reconnect policy of ensure_connection.  First, at or above the
cap of 3 attempts the call reports failure with no connect call, no delay
and an unchanged counter.  Second, below the cap the counter is incremented
before the attempt and a 5-second delay precedes the connect call, whose
result is returned unchanged.  Third, the concrete scenario: from a fresh
disconnected state with every transport attempt failing, three calls each
perform exactly one connect attempt (counter 1, 2, 3) and the fourth call
returns the give-up failure with no fourth connect call and the counter
left at 3. -/
theorem ensure_connection_reconnect_policy :
    (∀ (fuel : Nat) (env : KisApi.Env) (st : KisApi.ConnState),
      (st.websocketSome = false ∨ st.closed = true) →
      KisApi._max_reconnect_attempts ≤ st.reconnectAttempts →
      KisApi.ensure_connection (fuel + 1) env st = (false, st, []))
    ∧ (∀ (fuel : Nat) (env : KisApi.Env) (st : KisApi.ConnState),
      (st.websocketSome = false ∨ st.closed = true) →
      st.reconnectAttempts < KisApi._max_reconnect_attempts →
      KisApi.ensure_connection (fuel + 1) env st =
        ((KisApi.connect fuel env
            { st with reconnectAttempts := st.reconnectAttempts + 1 }).1,
         (KisApi.connect fuel env
            { st with reconnectAttempts := st.reconnectAttempts + 1 }).2.1,
         KisApi.Ev.delay KisApi._reconnect_delay :: KisApi.Ev.connectCall ::
           (KisApi.connect fuel env
              { st with reconnectAttempts := st.reconnectAttempts + 1 }).2.2))
    ∧ KisApi.ensure_connection 9 failEnv scn0
        = (false, scn1, [KisApi.Ev.delay 5, KisApi.Ev.connectCall])
    ∧ KisApi.ensure_connection 9 failEnv scn1
        = (false, scn2, [KisApi.Ev.delay 5, KisApi.Ev.connectCall])
    ∧ KisApi.ensure_connection 9 failEnv scn2
        = (false, scn3, [KisApi.Ev.delay 5, KisApi.Ev.connectCall])
    ∧ KisApi.ensure_connection 9 failEnv scn3 = (false, scn3, []) := by
  refine ⟨?_, ?_, by decide, by decide, by decide, by decide⟩
  · intro fuel env st hdis hmax
    have hcond : (¬ st.websocketSome ∨ st.closed) := by
      rcases hdis with h | h <;> simp [h]
    have hlt : ¬ st.reconnectAttempts < KisApi._max_reconnect_attempts := by omega
    unfold KisApi.ensure_connection KisApi.runCall
    rw [if_pos hcond, if_neg hlt]
  · intro fuel env st hdis hlt
    have hcond : (¬ st.websocketSome ∨ st.closed) := by
      rcases hdis with h | h <;> simp [h]
    unfold KisApi.ensure_connection KisApi.runCall
    rw [if_pos hcond, if_pos hlt]
    rfl

/-- C4 witness: the cap branch and the below-cap branch of the policy at
concrete states, derived from the policy theorem itself. -/
theorem ensure_connection_reconnect_policy_witness :
    KisApi.ensure_connection 9 failEnv scn3 = (false, scn3, [])
    ∧ KisApi.ensure_connection 9 failEnv scn0 =
        ((KisApi.connect 8 failEnv { scn0 with reconnectAttempts := 1 }).1,
         (KisApi.connect 8 failEnv { scn0 with reconnectAttempts := 1 }).2.1,
         KisApi.Ev.delay KisApi._reconnect_delay :: KisApi.Ev.connectCall ::
           (KisApi.connect 8 failEnv { scn0 with reconnectAttempts := 1 }).2.2) :=
  ⟨ensure_connection_reconnect_policy.1 8 failEnv scn3 (Or.inl rfl) (by decide),
   ensure_connection_reconnect_policy.2.1 8 failEnv scn0 (Or.inl rfl) (by decide)⟩

/-- Removal characterisation for one processed message: an existing
trigger-state entry for S is gone afterwards exactly when the message is a
well-formed trade tick for S arriving more than 120 seconds after the
recorded trigger time. -/
lemma lookup_after_process_message (now : Int) (reply : Frame) (st : VIService.VIState)
    (msg S : String) (t0 : Int)
    (hS : st.vi_triggered_stocks.lookup S = some t0) :
    ((VIService.process_message now reply st msg).1.vi_triggered_stocks).lookup S = none
      ↔ (VIService.is_trade_tick_for S msg = true ∧ 120 < now - t0) := by
  by_cases hpp : msg = "PINGPONG"
  · subst hpp
    have htick : VIService.is_trade_tick_for S "PINGPONG" = false := rfl
    unfold VIService.process_message
    rw [if_pos rfl]
    simp [hS, htick]
  · unfold VIService.process_message
    rw [if_neg hpp]
    split
    · rename_i hm
      have htick : VIService.is_trade_tick_for S msg = false := by
        unfold VIService.is_trade_tick_for
        rw [hm]
      simp [hS, htick]
    · rename_i c rest hm
      by_cases hc : c = '0' ∨ c = '1'
      case neg =>
        have htick : VIService.is_trade_tick_for S msg = false := by
          unfold VIService.is_trade_tick_for
          rw [hm]
          obtain ⟨h0, h1⟩ := not_or.mp hc
          simp [beq_false_of_ne h0, beq_false_of_ne h1]
        rw [if_neg hc]
        simp [hS, htick]
      case pos =>
        rw [if_pos hc]
        by_cases hlen : (pySplit msg '|').length < 4
        · rw [if_pos hlen]
          have htick : VIService.is_trade_tick_for S msg = false := by
            unfold VIService.is_trade_tick_for
            rw [hm]
            simp [show ¬ 4 ≤ (pySplit msg '|').length from by omega]
          simp [hS, htick]
        · rw [if_neg hlen]
          by_cases htr : (pySplit msg '|').getD 1 "" = VIConfig.REALTIME_TR
          · rw [if_pos htr]
            have htick : VIService.is_trade_tick_for S msg = false := by
              unfold VIService.is_trade_tick_for
              rw [hm]
              have hne : ((pySplit msg '|').getD 1 "" == "H0STASP0") = false := by
                rw [htr]
                decide
              rw [hne]
              simp
            split
            · simp [hS, htick]
            · rename_i d hd
              simp only [subscribe_realtime_trade_stocks, lookup_dictInsert, htick]
              by_cases hSd : S = d.stck_shrn_iscd <;> simp [hSd, hS, htick]
          · rw [if_neg htr]
            by_cases htr2 : (pySplit msg '|').getD 1 "" = "H0STASP0"
            · rw [if_pos htr2]
              split
              · rename_i hd
                have htick : VIService.is_trade_tick_for S msg = false := by
                  unfold VIService.is_trade_tick_for
                  rw [hm, hd]
                  simp
                simp [hS, htick]
              · rename_i d hd
                dsimp only
                by_cases hSd : d.stck_shrn_iscd = S
                · have htick : VIService.is_trade_tick_for S msg = true := by
                    unfold VIService.is_trade_tick_for
                    rw [hm, hd]
                    have hC : ((pySplit msg '|').getD 1 "" == "H0STASP0") = true := by
                      rw [htr2]
                      decide
                    have hB : decide (4 ≤ (pySplit msg '|').length) = true :=
                      decide_eq_true (by omega)
                    rw [hC, hB]
                    rcases hc with h | h <;> subst h <;> simp [hSd]
                  rw [hSd, hS]
                  dsimp only
                  by_cases hexp : 120 < now - t0
                  · rw [if_pos hexp]
                    simp [lookup_dictErase_self, htick, hexp]
                  · rw [if_neg hexp]
                    simp [hS, htick, hexp]
                · have htick : VIService.is_trade_tick_for S msg = false := by
                    unfold VIService.is_trade_tick_for
                    rw [hm, hd]
                    simp [beq_false_of_ne hSd]
                  cases hq : st.vi_triggered_stocks.lookup d.stck_shrn_iscd with
                  | none =>
                    simp [hS, htick]
                  | some t1 =>
                    dsimp only
                    by_cases hexp : 120 < now - t1
                    · rw [if_pos hexp]
                      simp [lookup_dictErase_ne _ _ (fun h => hSd h.symm), hS, htick]
                    · rw [if_neg hexp]
                      simp [hS, htick]
            · rw [if_neg htr2]
              have htick : VIService.is_trade_tick_for S msg = false := by
                unfold VIService.is_trade_tick_for
                rw [hm, beq_false_of_ne htr2]
                simp
              simp [hS, htick]

/-- C3: an existing trigger-state entry for S is removed by processing a
message exactly when that message is a well-formed trade tick for S arriving
more than 120 seconds after the recorded trigger time (first conjunct: the
only removal path).  Moreover, across any sequence of processed messages
containing no trade tick for S, the entry survives: there is no timer-based
removal (second conjunct).  Concretely, with the entry for 005930 created at
time 0, the trade tick at 90 elapsed seconds leaves the entry with its
original timestamp, and the tick at 130 elapsed seconds removes it (third
and fourth conjuncts). -/
theorem trigger_entry_removal_semantics :
    (∀ (now : Int) (reply : Frame) (st : VIService.VIState) (msg S : String) (t0 : Int),
      st.vi_triggered_stocks.lookup S = some t0 →
      (((VIService.process_message now reply st msg).1.vi_triggered_stocks).lookup S = none
        ↔ (VIService.is_trade_tick_for S msg = true ∧ 120 < now - t0)))
    ∧ (∀ (reply : Frame) (S : String) (msgs : List (Int × String))
        (st : VIService.VIState),
      (st.vi_triggered_stocks.lookup S).isSome →
      (∀ p ∈ msgs, VIService.is_trade_tick_for S p.2 = false) →
      (((VIService.run_messages reply st msgs).vi_triggered_stocks).lookup S).isSome)
    ∧ ((VIService.process_message 90 exReply exViState
          exTradeTick).1.vi_triggered_stocks).lookup "005930" = some 0
    ∧ ((VIService.process_message 130 exReply exViState
          exTradeTick).1.vi_triggered_stocks).lookup "005930" = none := by
  refine ⟨fun now reply st msg S t0 hS =>
      lookup_after_process_message now reply st msg S t0 hS, ?_, by decide, by decide⟩
  intro reply S msgs
  induction msgs with
  | nil =>
    intro st h _
    simpa [VIService.run_messages] using h
  | cons p rest ih =>
    intro st h hall
    have hstep : (((VIService.process_message p.1 reply st
        p.2).1.vi_triggered_stocks).lookup S).isSome := by
      obtain ⟨t0, ht0⟩ := Option.isSome_iff_exists.mp h
      have hne : ((VIService.process_message p.1 reply st
          p.2).1.vi_triggered_stocks).lookup S ≠ none := by
        intro hnone
        have hiff := lookup_after_process_message p.1 reply st p.2 S t0 ht0
        have hcontra := hiff.mp hnone
        rw [hall p (List.mem_cons_self p rest)] at hcontra
        exact absurd hcontra.1 (by simp)
      exact Option.ne_none_iff_isSome.mp hne
    have hrun : VIService.run_messages reply st (p :: rest)
        = VIService.run_messages reply
            ((VIService.process_message p.1 reply st p.2).1) rest := rfl
    rw [hrun]
    exact ih _ hstep (fun q hq => hall q (List.mem_cons_of_mem p hq))

/-- C3 witness: the removal branch of the characterisation instantiated at
the concrete expired tick, together with the survival branch over a
sequence holding only the early tick. -/
theorem trigger_entry_removal_semantics_witness :
    ((VIService.process_message 130 exReply exViState
        exTradeTick).1.vi_triggered_stocks).lookup "005930" = none
    ∧ (((VIService.run_messages exReply exViState
        [(90, "0|X"), (500, "PINGPONG")]).vi_triggered_stocks).lookup "005930").isSome :=
  ⟨(trigger_entry_removal_semantics.1 130 exReply exViState exTradeTick "005930" 0
      (by decide)).mpr ⟨by decide, by decide⟩,
   trigger_entry_removal_semantics.2.1 exReply "005930" [(90, "0|X"), (500, "PINGPONG")]
      exViState (by decide) (by decide)⟩
